import Mathlib

/-!
Verification development for the CookSheet frontend (Next.js/TypeScript).

We shallowly embed the data handling of the React components into Lean:
- JavaScript field values are modelled by `JValue` (strings and integers),
  with JS truthiness made explicit via `JValue.truthy`.
- A JS record (object) is modelled as an ordered association list `Row`,
  matching spread and rest-destructuring semantics.
- Each event handler that transforms state or issues an HTTP request is
  modelled as a pure function from its inputs (including the state
  captured by its closure, which in React is the state as of the last
  render) to its outputs (new state plus the request bodies it issues).

The backend validation engine (FastAPI, not among the frontend sources)
is modelled from the spec where a claim needs it; those definitions carry
a doc comment starting with "Modelled from the spec:".
-/

/-- A JavaScript value as used in the data rows: a string or a number. -/
inductive JValue where
  | str : String → JValue
  | num : Int → JValue
deriving DecidableEq, Repr

/-- JS truthiness for the values we model: empty string and 0 are falsy. -/
def JValue.truthy : JValue → Bool
  | .str s => s ≠ ""
  | .num n => n ≠ 0

/-- A JS object (data record) as an ordered association list of fields. -/
abbrev Row := List (String × JValue)

/-- Property read `row[k]`: first binding of key `k`, if any. -/
def getField (row : Row) (k : String) : Option JValue :=
  (row.find? (fun p => p.1 = k)).map Prod.snd

/-- JS spread with override, `\x7b...row, k: v\x7d`: replace the value at `k`
in place if the key exists, otherwise append the new binding at the end. -/
def setField (row : Row) (k : String) (v : JValue) : Row :=
  if (row.find? (fun p => p.1 = k)).isSome then
    row.map (fun p => if p.1 = k then (k, v) else p)
  else row ++ [(k, v)]

/-- JS rest destructuring, `(\x7bk, ...rest\x7d) => rest`: drop the binding of
key `k`. -/
def removeField (row : Row) (k : String) : Row :=
  row.filter (fun p => p.1 ≠ k)

/-- The fixed rule-kind enum of the data model in the spec (section 3). -/
def ruleKindEnum : List String :=
  ["CoRun", "Exclusion", "Priority", "Capacity", "SkillMatch", "Timing"]

/-- The Rule interface of `layout.tsx` and `RuleBuilder.tsx`. -/
structure Rule where
  id : String
  description : String
  type : String
  parameters : Row
deriving DecidableEq, Repr

/-- Handler `handleAddRule` in `layout.tsx`: `setRules([...rules, rule])`. -/
def handleAddRule (rules : List Rule) (rule : Rule) : List Rule :=
  rules ++ [rule]

/-- Handler `handleRemoveRule` in `layout.tsx`:
`setRules(rules.filter(rule => rule.id !== ruleId))`. -/
def handleRemoveRule (rules : List Rule) (ruleId : String) : List Rule :=
  rules.filter (fun rule => rule.id ≠ ruleId)

/-- JS fallback `response.data.type || "custom"` in `RuleBuilder.tsx`:
a missing or empty (falsy) type string falls back to "custom". -/
def parsedRuleType (respType : Option String) : String :=
  match respType with
  | some s => if s = "" then "custom" else s
  | none => "custom"

/-- The rule built on the success path of `handleAddRule` in
`RuleBuilder.tsx` from the response of the rules/generate endpoint. -/
def mkParsedRule (nowId : String) (input : String) (respType : Option String)
    (respParams : Row) : Rule :=
  { id := nowId, description := input, type := parsedRuleType respType,
    parameters := respParams }

/-- The rule built on the catch (error fallback) path of `handleAddRule`
in `RuleBuilder.tsx`. -/
def mkFallbackRule (nowId : String) (input : String) : Rule :=
  { id := nowId, description := input, type := "custom",
    parameters := [("raw_query", JValue.str input)] }

/-- An AI rule suggestion as consumed by `handleRuleSuggestionAccept`. -/
structure Suggestion where
  id : String
  type : String
  suggested_rule : String
  confidence : JValue
  category : JValue
deriving DecidableEq, Repr

/-- Handler `handleRuleSuggestionAccept` in `layout.tsx`: the rule
appended when an AI suggestion is accepted. -/
def mkSuggestionRule (now : String) (s : Suggestion) : Rule :=
  { id := "suggestion_" ++ now, type := s.type, description := s.suggested_rule,
    parameters := [("source", JValue.str "ai_suggestion"),
                   ("confidence", s.confidence),
                   ("category", s.category)] }

/-! ## DataGrid (`DataGrid.tsx`) -/

/-- JS expression `row.id || index` in the rows memo of `DataGrid.tsx`:
the id field of the row if it is truthy, otherwise the position. -/
def gridId (row : Row) (index : Nat) : JValue :=
  match getField row "id" with
  | some v => if v.truthy then v else .num index
  | none => .num index

/-- One entry of the rows memo: `\x7b...row, id: row.id || index\x7d`. -/
def toGridRow (row : Row) (index : Nat) : Row :=
  setField row "id" (gridId row index)

/-- The rows memo of `DataGrid.tsx`: `data.map((row, index) => ...)`. -/
def gridRows (data : List Row) : List Row :=
  data.enum.map (fun p => toGridRow p.2 p.1)

/-- Handler `handleRowsChange` in `DataGrid.tsx`:
`newRows.map((\x7bid, ...rest\x7d) => rest)`. -/
def handleRowsChange (newRows : List Row) : List Row :=
  newRows.map (fun r => removeField r "id")

/-- Passing the grid rows straight back through `handleRowsChange`
(a grid edit that changes nothing). -/
def gridRoundTrip (data : List Row) : List Row :=
  handleRowsChange (gridRows data)

/-! ## ValidationSummary -/

/-- A ValidationIssue as rendered by the ValidationSummary component and
described in the data model of the spec (section 3). -/
structure Issue where
  error_type : String
  severity : String
  row_index : Int
  column : Option String
  message : String
  suggested_fix : Option String
  cell_value : Option JValue
deriving DecidableEq, Repr

/-- The row badge rendered for an error or warning in ValidationSummary:
shown with text `row_index + 1` exactly when `row_index >= 0`
(`error.row_index >= 0 && (... Row: error.row_index + 1 ...)`). -/
def rowBadge (issue : Issue) : Option Int :=
  if issue.row_index ≥ 0 then some (issue.row_index + 1) else none

/-- The examples displayed per error type in the summary section of
ValidationSummary: `details.examples.slice(0, 3)`. -/
def displayedExamples (examples : List Issue) : List Issue :=
  examples.take 3

/-! ## Export (`ExportPanel.tsx`, with state wired in `layout.tsx`) -/

/-- The body posted to the export endpoint by `handleFullExport`
(`prepareExportData`, minus the timestamp and priorities, which no claim
concerns). -/
structure ExportRequest where
  clients_data : List Row
  workers_data : List Row
  tasks_data : List Row
  rules : List Rule
deriving DecidableEq, Repr

/-- Clicking the full-export button: the button is disabled when
`isExporting || totalRecords === 0`; otherwise `handleFullExport` runs
and unconditionally posts `prepareExportData()` to the export endpoint.
Argument `isValidReport` is the value of `validationResult.is_valid` in
the state of `Home` (if a report exists); `ExportPanel` receives no
validation result among its props, so the outcome cannot depend on it. -/
def fullExportClick (isValidReport : Option Bool) (isExporting : Bool)
    (clients workers tasks : List Row) (rules : List Rule) :
    Option ExportRequest :=
  if isExporting || clients.length + workers.length + tasks.length == 0 then
    none
  else
    some { clients_data := clients, workers_data := workers,
           tasks_data := tasks, rules := rules }

/-! ## Upload / edit pipeline (`layout.tsx`) -/

/-- The three entity tables held in the state of `Home`. -/
structure Snapshot where
  clients : List Row
  workers : List Row
  tasks : List Row
deriving DecidableEq, Repr

/-- The `switch (type)` at the top of `handleDataUpload`: which table the
upload replaces. -/
def applyUpload (s : Snapshot) (t : String) (d : List Row) : Snapshot :=
  if t = "clients" then { s with clients := d }
  else if t = "workers" then { s with workers := d }
  else if t = "tasks" then { s with tasks := d }
  else s

/-- The body `handleDataUpload` sends to the comprehensive-validation
endpoint: the just-uploaded table is taken from `data`, the other two
from the state captured by the closure (the pre-upload state, since
`setClientsData` and friends do not change the captured variables). -/
def comprehensiveValidationBody (s : Snapshot) (t : String) (d : List Row) :
    Snapshot :=
  { clients := if t = "clients" then d else s.clients,
    workers := if t = "workers" then d else s.workers,
    tasks := if t = "tasks" then d else s.tasks }

/-- Handler `handleDataUpload` in `layout.tsx`, as a pair of the new
state and the body of the comprehensive-validation request it issues, if
any. The request is issued only inside `if (backendResponse)`, and only
when `clientsData.length > 0 || workersData.length > 0 ||
tasksData.length > 0` evaluated on the captured (pre-upload) state. -/
def handleDataUpload (s : Snapshot) (t : String) (d : List Row)
    (hasBackendResponse : Bool) : Snapshot × Option Snapshot :=
  (applyUpload s t d,
   if hasBackendResponse &&
      (!s.clients.isEmpty || !s.workers.isEmpty || !s.tasks.isEmpty) then
     some (comprehensiveValidationBody s t d)
   else none)

/-- Handler `handleDataUpdate` in `layout.tsx`:
`handleDataUpload(type, newData)` with no third argument, so
`backendResponse` is undefined (falsy). -/
def handleDataUpdate (s : Snapshot) (t : String) (d : List Row) :
    Snapshot × Option Snapshot :=
  handleDataUpload s t d false

/-! ## Natural-language modification (`NLModify.tsx`) -/

/-- The JSON body returned by the natural-language modification endpoint,
as read by `handleSubmit` in `NLModify.tsx`. A missing `modified_*`
array is `none` (falsy in JS); `ok` is the HTTP ok flag of the response. -/
structure ModifyResponse where
  ok : Bool
  total_changes : Int
  modified_clients : Option (List Row)
  modified_workers : Option (List Row)
  modified_tasks : Option (List Row)
deriving DecidableEq, Repr

/-- Outcome of the fetch call in `handleSubmit`: either the fetch itself
throws (network failure) or a response arrives. -/
inductive FetchOutcome where
  | networkError : FetchOutcome
  | response : ModifyResponse → FetchOutcome
deriving DecidableEq, Repr

/-- JS guard `data.modified_X && data.modified_X.length > 0` followed by
`onDataUpdate(name, data.modified_X)`. -/
def entityUpdate (name : String) (modified : Option (List Row)) :
    List (String × List Row) :=
  match modified with
  | some l => if l.isEmpty then [] else [(name, l)]
  | none => []

/-- Handler `handleSubmit` in `NLModify.tsx`, modelled as the list of
`onDataUpdate(type, newData)` calls it makes. Early returns (empty
query, no data loaded), a non-ok response (which throws) and a thrown
fetch all reach the catch block without calling `onDataUpdate`. -/
def handleSubmit (query : String) (clients workers tasks : List Row)
    (outcome : FetchOutcome) : List (String × List Row) :=
  if query.trim = "" then []
  else if clients.isEmpty && workers.isEmpty && tasks.isEmpty then []
  else
    match outcome with
    | .networkError => []
    | .response r =>
      if !r.ok then []
      else if r.total_changes > 0 then
        entityUpdate "clients" r.modified_clients ++
        entityUpdate "workers" r.modified_workers ++
        entityUpdate "tasks" r.modified_tasks
      else []

/-! ## Visual rule builder (`VisualRuleBuilder.tsx`) -/

/-- The Rule interface of `VisualRuleBuilder.tsx` (it has `name` and
`isActive` instead of `description`). -/
structure VRule where
  id : String
  type : String
  name : JValue
  parameters : Row
  isActive : Bool
deriving DecidableEq, Repr

/-- Function `createRule` in `VisualRuleBuilder.tsx`: returns with an
alert when `!currentRule.name` (missing or falsy name), otherwise adds a
rule with `type: activeTab`, `parameters: \x7b...currentRule\x7d` and
`isActive: true`. -/
def createRule (activeTab : String) (currentRule : Row) (now : String) :
    Option VRule :=
  match getField currentRule "name" with
  | none => none
  | some v =>
    if v.truthy then
      some { id := "rule_" ++ now, type := activeTab, name := v,
             parameters := currentRule, isActive := true }
    else none

/-! ## Diagnostic reporter (backend, modelled from the spec) -/

/-- Deduplication key of an issue: error type, row index, column and
message (section 4.6 of the spec). -/
def issueKey (i : Issue) : String × Int × Option String × String :=
  (i.error_type, i.row_index, i.column, i.message)

/-- Modelled from the spec: the deduplication step of the Diagnostic
Reporter (backend code, not among the frontend sources), keeping the
first occurrence of each key. `seen` accumulates the issues kept so far. -/
def dedupIssuesAux (seen : List Issue) : List Issue → List Issue
  | [] => []
  | i :: rest =>
    if seen.any (fun j => issueKey j = issueKey i) then
      dedupIssuesAux seen rest
    else i :: dedupIssuesAux (i :: seen) rest

/-- Modelled from the spec: exact-duplicate removal over all issue
streams (section 4.6). -/
def dedupIssues (issues : List Issue) : List Issue :=
  dedupIssuesAux [] issues

/-- Severity test used throughout: a critical issue. -/
def isCritical (i : Issue) : Bool :=
  i.severity = "critical"

/-- Modelled from the spec: one entry of the summary map, for a given
error type — count, severity, and the first 3 examples (section 4.6).
The ordering of the merged issue list is not further modelled; no claim
below depends on it. -/
def summaryEntry (issues : List Issue) (etype : String) :
    Nat × String × List Issue :=
  let matching := (dedupIssues issues).filter (fun i => i.error_type = etype)
  (matching.length,
   ((matching.head?).map Issue.severity).getD "warning",
   matching.take 3)

/-- Modelled from the spec: the ValidationReport assembled by the
Diagnostic Reporter (section 4.6) — deduplicated errors and warnings,
their totals, and `is_valid` true iff zero critical issues remain. -/
structure Report where
  is_valid : Bool
  total_errors : Nat
  total_warnings : Nat
  errors : List Issue
  warnings : List Issue
deriving DecidableEq, Repr

/-- Modelled from the spec: the Diagnostic Reporter as a function of the
merged issue stream (backend code, not among the frontend sources). -/
def buildReport (issues : List Issue) : Report :=
  let deduped := dedupIssues issues
  let errs := deduped.filter isCritical
  let warns := deduped.filter (fun i => !isCritical i)
  { is_valid := errs.isEmpty,
    total_errors := errs.length,
    total_warnings := warns.length,
    errors := errs,
    warnings := warns }

/-! ## Helper lemmas -/

/-- A field read returns nothing iff no binding of the key is present. -/
theorem getField_eq_none {row : Row} {k : String} :
    getField row k = none ↔ ∀ p ∈ row, p.1 ≠ k := by
  simp [getField, List.find?_eq_none]

/-- Removing a key then reading it yields nothing. -/
theorem getField_removeField (row : Row) (k : String) :
    getField (removeField row k) k = none := by
  rw [getField_eq_none]
  intro p hp
  have := List.of_mem_filter hp
  simpa using this

/-- Removing an absent key is the identity. -/
theorem removeField_of_not_mem {row : Row} {k : String}
    (h : ∀ p ∈ row, p.1 ≠ k) : removeField row k = row := by
  apply List.filter_eq_self.mpr
  intro p hp
  simpa using h p hp

/-! ## Claim theorems -/

/-- Claim C1, counterexample: with one client record uploaded, a current
validation report whose is_valid is false, and no export in flight,
clicking the full-export button does issue the export request bundling
data and rules, so export is not gated on is_valid. -/
theorem full_export_despite_invalid_report :
    fullExportClick (some false) false [[("ClientID", JValue.str "C1")]] [] [] [] =
      some { clients_data := [[("ClientID", JValue.str "C1")]],
             workers_data := [], tasks_data := [], rules := [] } := rfl

/-- Claim C1 (amended): the full configuration export is independent of
the validation report; a click issues the export request exactly when no
export is in flight and the total record count is nonzero, whatever
is_valid says. -/
theorem full_export_gate (va vb : Option Bool) (isExporting : Bool)
    (clients workers tasks : List Row) (rules : List Rule) :
    fullExportClick va isExporting clients workers tasks rules =
      fullExportClick vb isExporting clients workers tasks rules ∧
    ((fullExportClick va isExporting clients workers tasks rules).isSome ↔
      isExporting = false ∧ clients.length + workers.length + tasks.length ≠ 0) := by
  constructor
  · rfl
  · simp only [fullExportClick]
    split
    · rename_i h
      simp only [Option.isSome_none, Bool.false_eq_true, false_iff]
      rcases Bool.or_eq_true_iff.mp h with h | h
      · intro hc
        rw [hc.1] at h
        exact Bool.false_ne_true h
      · intro hc
        exact hc.2 (by simpa using h)
    · rename_i h
      simp only [Option.isSome_some, true_iff]
      rw [Bool.or_eq_true_iff] at h
      push_neg at h
      constructor
      · cases isExporting
        · rfl
        · exact absurd rfl h.1
      · intro hz
        exact h.2 (by simpa using hz)

/-- Claim C2, counterexample: the very first upload (all three tables
previously empty) of a non-empty clients table, backend response in
hand, issues no comprehensive-validation request, because the guard
reads the pre-upload state captured by the closure. -/
theorem first_upload_triggers_no_validation :
    (handleDataUpload ⟨[], [], []⟩ "clients"
      [[("ClientID", JValue.str "C1")]] true).2 = none := rfl

/-- Claim C2 (amended): edits routed through handleDataUpdate (grid and
natural-language edits) never trigger a comprehensive-validation
request; an upload with a backend response triggers one exactly when at
least one table was already non-empty before the upload, and the request
body then equals the post-edit snapshot (just-edited table new, other
two from the pre-upload state). -/
theorem upload_validation_requests (s : Snapshot) (t : String) (d : List Row) :
    (handleDataUpdate s t d).2 = none ∧
    (s.clients = [] ∧ s.workers = [] ∧ s.tasks = [] →
      (handleDataUpload s t d true).2 = none) ∧
    (s.clients ≠ [] ∨ s.workers ≠ [] ∨ s.tasks ≠ [] →
      (handleDataUpload s t d true).2 = some (comprehensiveValidationBody s t d)) ∧
    comprehensiveValidationBody s t d = applyUpload s t d := by
  refine ⟨rfl, ?_, ?_, ?_⟩
  · rintro ⟨hc, hw, ht⟩
    simp [handleDataUpload, hc, hw, ht]
  · intro h
    have hcond : (!s.clients.isEmpty || !s.workers.isEmpty || !s.tasks.isEmpty) = true := by
      rcases h with h | h | h <;>
        simp [List.isEmpty_iff, h]
    simp [handleDataUpload, hcond]
  · unfold comprehensiveValidationBody applyUpload
    split_ifs with h1 h2 h3 <;> simp_all

/-- Claim C2 amended, witness: uploading a workers table while a client
record is already present issues a validation request whose body is the
post-edit snapshot. -/
theorem upload_validation_requests_witness :
    (handleDataUpload ⟨[[("ClientID", JValue.str "C1")]], [], []⟩ "workers"
      [[("WorkerID", JValue.str "W1")]] true).2 =
      some (comprehensiveValidationBody
        ⟨[[("ClientID", JValue.str "C1")]], [], []⟩ "workers"
        [[("WorkerID", JValue.str "W1")]]) :=
  (upload_validation_requests ⟨[[("ClientID", JValue.str "C1")]], [], []⟩
    "workers" [[("WorkerID", JValue.str "W1")]]).2.2.1 (Or.inl (by decide))

/-- Claim C3, counterexample: the rule created by the error fallback of
the natural-language rule parser path carries type "custom", which is
not in the fixed enum CoRun, Exclusion, Priority, Capacity, SkillMatch,
Timing. -/
theorem fallback_rule_type_outside_enum :
    (mkFallbackRule "1700000000000" "Balance load across all workers").type ∉
      ruleKindEnum := by
  decide

/-- Claim C3 (amended): rules produced by the natural-language parser
path and by accepting an AI suggestion carry whatever type string the
backend supplies — the fallback paths (missing or empty backend type,
or a thrown error) use "custom" — and nothing restricts these types to
the fixed kind enum, which does not even contain "custom". -/
theorem nl_rule_types_unconstrained (nowId input : String) (respParams : Row)
    (t : String) (ht : t ≠ "") (sug : Suggestion) (now : String) :
    (mkFallbackRule nowId input).type = "custom" ∧
    (mkParsedRule nowId input none respParams).type = "custom" ∧
    (mkParsedRule nowId input (some t) respParams).type = t ∧
    (mkSuggestionRule now sug).type = sug.type ∧
    "custom" ∉ ruleKindEnum := by
  refine ⟨rfl, rfl, ?_, rfl, by decide⟩
  simp [mkParsedRule, parsedRuleType, ht]

/-- Claim C3 amended, witness at a concrete suggestion and a concrete
non-empty backend type. -/
theorem nl_rule_types_unconstrained_witness :
    (mkFallbackRule "1" "q").type = "custom" ∧
    (mkParsedRule "1" "q" none []).type = "custom" ∧
    (mkParsedRule "1" "q" (some "coRun") []).type = "coRun" ∧
    (mkSuggestionRule "2" ⟨"s1", "loadBalance", "r", JValue.num 1, JValue.str "c"⟩).type =
      "loadBalance" ∧
    "custom" ∉ ruleKindEnum :=
  nl_rule_types_unconstrained "1" "q" [] "coRun" (by decide)
    ⟨"s1", "loadBalance", "r", JValue.num 1, JValue.str "c"⟩ "2"

/-- Claim C5: the validation summary shows a row badge reading
row_index + 1 for every issue with row_index at least 0, and omits the
badge exactly when row_index is negative. -/
theorem row_badge_rendering (issue : Issue) :
    (0 ≤ issue.row_index → rowBadge issue = some (issue.row_index + 1)) ∧
    (issue.row_index < 0 → rowBadge issue = none) := by
  constructor
  · intro h
    simp [rowBadge, h]
  · intro h
    simp [rowBadge]
    omega

/-- Claim C5, witness: an issue at row 1 renders the badge "Row: 2". -/
theorem row_badge_rendering_witness :
    rowBadge { error_type := "duplicate_id", severity := "critical",
               row_index := 1, column := some "WorkerID", message := "m",
               suggested_fix := none, cell_value := none } = some 2 :=
  (row_badge_rendering _).1 (by decide)

/-- Claim C6: a summary entry built per error type includes at most 3
examples, and the view displays at most the first 3 examples of each
error type whatever list it is given. -/
theorem summary_examples_at_most_three (issues : List Issue) (etype : String)
    (examples : List Issue) :
    (summaryEntry issues etype).2.2.length ≤ 3 ∧
    (displayedExamples examples).length ≤ 3 := by
  constructor
  · simp only [summaryEntry, List.length_take]
    omega
  · simp only [displayedExamples, List.length_take]
    omega

/-- Claim C7: adding a rule appends it at the end, leaving the existing
rules and their order unchanged; removing by id deletes exactly the
rules with that id, keeping the rest in order (the result is a sublist,
hence order-preserving). -/
theorem rule_list_discipline (rules : List Rule) (r : Rule) (ruleId : String) :
    (handleAddRule rules r).take rules.length = rules ∧
    (handleAddRule rules r).length = rules.length + 1 ∧
    (handleAddRule rules r).getLast? = some r ∧
    List.Sublist (handleRemoveRule rules ruleId) rules ∧
    (∀ x : Rule, x ∈ handleRemoveRule rules ruleId ↔ x ∈ rules ∧ x.id ≠ ruleId) := by
  refine ⟨?_, ?_, ?_, ?_, ?_⟩
  · simp [handleAddRule, List.take_left]
  · simp [handleAddRule]
  · simp [handleAddRule]
  · exact List.filter_sublist rules
  · intro x
    simp [handleRemoveRule]

/-- For a record without an id field, adding the grid id and stripping
it again is the identity; stated over `enumFrom` to allow induction. -/
theorem gridRoundTrip_enumFrom (data : List Row)
    (h : ∀ r ∈ data, getField r "id" = none) (n : Nat) :
    ((data.enumFrom n).map (fun p => removeField (toGridRow p.2 p.1) "id")) = data := by
  induction data generalizing n with
  | nil => rfl
  | cons r rest ih =>
    have hr : getField r "id" = none := h r (List.mem_cons_self r rest)
    have hrest : ∀ x ∈ rest, getField x "id" = none := fun x hx =>
      h x (List.mem_cons_of_mem r hx)
    have hkeys : ∀ p ∈ r, p.1 ≠ "id" := getField_eq_none.mp hr
    have hfind : (r.find? (fun p => p.1 = "id")).isSome = false := by
      have : r.find? (fun p => p.1 = "id") = none := by
        apply List.find?_eq_none.mpr
        intro x hx
        simpa using hkeys x hx
      simp [this]
    simp only [List.enumFrom, List.map_cons, ih hrest]
    congr 1
    show removeField (setField r "id" (gridId r n)) "id" = r
    rw [setField, if_neg (by simp [hfind])]
    rw [removeField, List.filter_append]
    rw [List.filter_eq_self.mpr (by intro p hp; simpa using hkeys p hp)]
    simp

/-- Claim C8: for data whose records carry no id field, converting to
grid rows and passing them back through handleRowsChange returns the
original data; and every record coming out of handleRowsChange has no id
field, so a data column literally named id is dropped by any grid edit. -/
theorem grid_round_trip (data : List Row) :
    ((∀ r ∈ data, getField r "id" = none) → gridRoundTrip data = data) ∧
    (∀ r ∈ gridRoundTrip data, getField r "id" = none) := by
  constructor
  · intro h
    have := gridRoundTrip_enumFrom data h 0
    simpa [gridRoundTrip, handleRowsChange, gridRows, List.enum, List.map_map,
           Function.comp] using this
  · intro r hr
    simp only [gridRoundTrip, handleRowsChange, List.mem_map] at hr
    obtain ⟨a, _, rfl⟩ := hr
    exact getField_removeField a "id"

/-- Claim C8, witness: a concrete two-row dataset without an id column
round-trips unchanged through the grid. -/
theorem grid_round_trip_witness :
    gridRoundTrip [[("ClientID", JValue.str "C1"), ("Budget", JValue.num 50000)],
                   [("ClientID", JValue.str "C2")]] =
      [[("ClientID", JValue.str "C1"), ("Budget", JValue.num 50000)],
       [("ClientID", JValue.str "C2")]] :=
  (grid_round_trip _).1 (by decide)

/-- Membership in one entity update block forces the matching name, the
matching non-empty modified array, and nothing else. -/
theorem mem_entityUpdate {name t : String} {modified : Option (List Row)}
    {d : List Row} (h : (t, d) ∈ entityUpdate name modified) :
    t = name ∧ modified = some d ∧ d ≠ [] := by
  cases modified with
  | none => simp [entityUpdate] at h
  | some l =>
    simp only [entityUpdate] at h
    split at h
    · simp at h
    · rename_i hl
      simp at h
      obtain ⟨rfl, rfl⟩ := h
      exact ⟨rfl, rfl, by simpa [List.isEmpty_iff] using hl⟩

/-- Claim C9: the natural-language modification handler calls
onDataUpdate for no entity when the query is blank, no data is loaded,
the fetch throws, the response is not ok, or total_changes is not
positive; and every onDataUpdate call it does make is for an ok
response with total_changes positive and passes that entity's non-empty
modified array. -/
theorem nl_modify_atomic (query : String) (clients workers tasks : List Row)
    (outcome : FetchOutcome) :
    (query.trim = "" → handleSubmit query clients workers tasks outcome = []) ∧
    (clients = [] → workers = [] → tasks = [] →
      handleSubmit query clients workers tasks outcome = []) ∧
    (handleSubmit query clients workers tasks FetchOutcome.networkError = []) ∧
    (∀ r : ModifyResponse, r.ok = false →
      handleSubmit query clients workers tasks (FetchOutcome.response r) = []) ∧
    (∀ r : ModifyResponse, ¬ r.total_changes > 0 →
      handleSubmit query clients workers tasks (FetchOutcome.response r) = []) ∧
    (∀ t d, (t, d) ∈ handleSubmit query clients workers tasks outcome →
      ∃ r : ModifyResponse, outcome = FetchOutcome.response r ∧ r.ok = true ∧
        r.total_changes > 0 ∧ d ≠ [] ∧
        ((t = "clients" ∧ r.modified_clients = some d) ∨
         (t = "workers" ∧ r.modified_workers = some d) ∨
         (t = "tasks" ∧ r.modified_tasks = some d))) := by
  refine ⟨?_, ?_, ?_, ?_, ?_, ?_⟩
  · intro h
    simp [handleSubmit, h]
  · intro hc hw ht
    simp only [handleSubmit, hc, hw, ht, List.isEmpty_nil, Bool.and_self]
    split <;> simp
  · simp only [handleSubmit]
    split <;> [rfl; skip]
    split <;> rfl
  · intro r hok
    simp only [handleSubmit, hok]
    split <;> [rfl; skip]
    split <;> simp
  · intro r htc
    simp only [handleSubmit, if_neg htc]
    split
    · rfl
    · split
      · rfl
      · split <;> rfl
  · intro t d hmem
    cases outcome with
    | networkError =>
      simp only [handleSubmit] at hmem
      split at hmem
      · simp at hmem
      · split at hmem <;> simp at hmem
    | response r =>
      refine ⟨r, rfl, ?_⟩
      simp only [handleSubmit] at hmem
      split at hmem
      · simp at hmem
      · split at hmem
        · simp at hmem
        · split at hmem
          · simp at hmem
          · rename_i hok
            split at hmem
            · rename_i htc
              refine ⟨by simpa using hok, htc, ?_⟩
              rw [List.mem_append, List.mem_append] at hmem
              rcases hmem with (hm | hm) | hm
              · obtain ⟨rfl, hmod, hd⟩ := mem_entityUpdate hm
                exact ⟨hd, Or.inl ⟨rfl, hmod⟩⟩
              · obtain ⟨rfl, hmod, hd⟩ := mem_entityUpdate hm
                exact ⟨hd, Or.inr (Or.inl ⟨rfl, hmod⟩)⟩
              · obtain ⟨rfl, hmod, hd⟩ := mem_entityUpdate hm
                exact ⟨hd, Or.inr (Or.inr ⟨rfl, hmod⟩)⟩
            · simp at hmem

/-- Claim C9, witness: a non-ok HTTP response makes no onDataUpdate
calls even with data loaded and modified arrays present in the body. -/
theorem nl_modify_atomic_witness :
    handleSubmit "Set all budgets to 0" [[("ClientID", JValue.str "C1")]] [] []
      (FetchOutcome.response
        { ok := false, total_changes := 1,
          modified_clients := some [[("ClientID", JValue.str "C1")]],
          modified_workers := none, modified_tasks := none }) = [] :=
  (nl_modify_atomic "Set all budgets to 0" [[("ClientID", JValue.str "C1")]] [] []
      (FetchOutcome.response
        { ok := false, total_changes := 1,
          modified_clients := some [[("ClientID", JValue.str "C1")]],
          modified_workers := none, modified_tasks := none })).2.2.2.1
    { ok := false, total_changes := 1,
      modified_clients := some [[("ClientID", JValue.str "C1")]],
      modified_workers := none, modified_tasks := none } rfl

/-- Claim C10: the visual rule builder adds a rule only when a truthy
(non-empty) rule name has been entered, and every rule it creates is
active, typed with the currently selected tab, and captures the entered
fields as its parameters. -/
theorem create_rule_invariants (activeTab : String) (currentRule : Row)
    (now : String) :
    (∀ r : VRule, createRule activeTab currentRule now = some r →
      ∃ v, getField currentRule "name" = some v ∧ v.truthy = true ∧
        r.isActive = true ∧ r.type = activeTab ∧ r.parameters = currentRule) ∧
    (getField currentRule "name" = none →
      createRule activeTab currentRule now = none) ∧
    (∀ v, getField currentRule "name" = some v → v.truthy = false →
      createRule activeTab currentRule now = none) := by
  refine ⟨?_, ?_, ?_⟩
  · intro r hr
    simp only [createRule] at hr
    split at hr
    · exact absurd hr (by simp)
    · rename_i v hv
      split at hr
      · rename_i htruthy
        refine ⟨v, hv, htruthy, ?_⟩
        obtain rfl := Option.some_injective _ hr
        exact ⟨rfl, rfl, rfl⟩
      · simp at hr
  · intro h
    simp [createRule, h]
  · intro v hv hfalsy
    simp [createRule, hv, hfalsy]

/-- Claim C10, witness: entering the name "Worker Load Limit" on the
capacity tab creates an active capacity rule capturing the fields. -/
theorem create_rule_invariants_witness :
    ∃ v, getField [("name", JValue.str "Worker Load Limit"),
                   ("maxTasks", JValue.num 3)] "name" = some v ∧
      v.truthy = true ∧
      ({ id := "rule_99", type := "capacity",
         name := JValue.str "Worker Load Limit",
         parameters := [("name", JValue.str "Worker Load Limit"),
                        ("maxTasks", JValue.num 3)],
         isActive := true } : VRule).isActive = true ∧
      ({ id := "rule_99", type := "capacity",
         name := JValue.str "Worker Load Limit",
         parameters := [("name", JValue.str "Worker Load Limit"),
                        ("maxTasks", JValue.num 3)],
         isActive := true } : VRule).type = "capacity" ∧
      ({ id := "rule_99", type := "capacity",
         name := JValue.str "Worker Load Limit",
         parameters := [("name", JValue.str "Worker Load Limit"),
                        ("maxTasks", JValue.num 3)],
         isActive := true } : VRule).parameters =
        [("name", JValue.str "Worker Load Limit"),
         ("maxTasks", JValue.num 3)] :=
  (create_rule_invariants "capacity"
    [("name", JValue.str "Worker Load Limit"), ("maxTasks", JValue.num 3)]
    "99").1 _ (by decide)

/-- Every issue surviving deduplication came from the input stream. -/
theorem mem_dedupIssuesAux {i : Issue} :
    ∀ (l seen : List Issue), i ∈ dedupIssuesAux seen l → i ∈ l := by
  intro l
  induction l with
  | nil =>
    intro seen h
    simp [dedupIssuesAux] at h
  | cons a rest ih =>
    intro seen h
    simp only [dedupIssuesAux] at h
    split at h
    · exact List.mem_cons_of_mem a (ih _ h)
    · rcases List.mem_cons.mp h with rfl | h
      · exact List.mem_cons_self _ _
      · exact List.mem_cons_of_mem a (ih _ h)

/-- Appending non-critical issues to the stream does not change the
critical issues surviving deduplication. -/
theorem dedupIssuesAux_append_noncritical {ws : List Issue}
    (hw : ∀ w ∈ ws, isCritical w = false) :
    ∀ (l seen : List Issue),
      (dedupIssuesAux seen (l ++ ws)).filter isCritical =
        (dedupIssuesAux seen l).filter isCritical := by
  intro l
  induction l with
  | nil =>
    intro seen
    simp only [List.nil_append, dedupIssuesAux]
    have h1 : List.filter isCritical (dedupIssuesAux seen ws) = [] := by
      apply List.filter_eq_nil_iff.mpr
      intro a ha
      simp [hw a (mem_dedupIssuesAux ws seen ha)]
    simp [h1]
  | cons a rest ih =>
    intro seen
    simp only [List.cons_append, dedupIssuesAux]
    split
    · exact ih seen
    · simp only [List.filter_cons, List.append_eq, ih (a :: seen)]

/-- Claim C4: in a ValidationReport, is_valid is true iff the report
contains zero critical issues (its errors list is empty, equivalently no
deduplicated issue is critical), and appending any number of warnings to
the issue stream never changes is_valid. -/
theorem is_valid_gating (issues ws : List Issue)
    (hw : ∀ w ∈ ws, isCritical w = false) :
    ((buildReport issues).is_valid = true ↔ (buildReport issues).errors = []) ∧
    ((buildReport issues).is_valid = true ↔ (buildReport issues).total_errors = 0) ∧
    ((buildReport issues).is_valid = true ↔
      ∀ i ∈ dedupIssues issues, isCritical i = false) ∧
    (buildReport (issues ++ ws)).is_valid = (buildReport issues).is_valid := by
  refine ⟨?_, ?_, ?_, ?_⟩
  · simp [buildReport, List.isEmpty_iff]
  · simp [buildReport, List.isEmpty_iff]
  · simp [buildReport, List.isEmpty_iff, List.filter_eq_nil_iff]
  · simp only [buildReport, dedupIssues]
    rw [dedupIssuesAux_append_noncritical hw issues []]

/-- Claim C4, witness: one critical duplicate-id issue plus one
phase-saturation warning; the warning leaves is_valid unchanged. -/
theorem is_valid_gating_witness :
    (buildReport
      ([{ error_type := "duplicate_id", severity := "critical", row_index := 1,
          column := some "WorkerID", message := "dup", suggested_fix := none,
          cell_value := none }] ++
       [{ error_type := "phase_saturation", severity := "warning", row_index := -1,
          column := none, message := "phase 1", suggested_fix := none,
          cell_value := none }])).is_valid =
    (buildReport
      [{ error_type := "duplicate_id", severity := "critical", row_index := 1,
         column := some "WorkerID", message := "dup", suggested_fix := none,
         cell_value := none }]).is_valid :=
  (is_valid_gating
    [{ error_type := "duplicate_id", severity := "critical", row_index := 1,
       column := some "WorkerID", message := "dup", suggested_fix := none,
       cell_value := none }]
    [{ error_type := "phase_saturation", severity := "warning", row_index := -1,
       column := none, message := "phase 1", suggested_fix := none,
       cell_value := none }] (by decide)).2.2.2
